import Mathlib

/-!
Verification of the PaperPlot (ppplt) lifecycle gate, legend-layout
calculator, save path construction, pipeline steps, and color/preset
registries, via a shallow embedding of the Python source.
-/

namespace PaperPlot

/-- The five lifecycle phases of the gate (`_Phase` in `ppplt/__init__.py`). -/
inductive Phase where
  | UNINITIALIZED
  | INITIALIZED
  | STYLE_SET
  | DRAWN
  | SAVED
deriving DecidableEq, Repr

/-- Structured model of the exceptions raised by the package.
`invalidSequence` models the `PaperPlotException` built by `_require_phase`
(its message carries the current phase name and the allowed phase names);
the remaining constructors model the other `PaperPlotException` /
`ValueError` raises, keyed by raise site. -/
inductive PError where
  | invalidSequence (current : Phase) (allowed : List Phase)
  | alreadyInitialized
  | unsupportedTheme
  | bothStyleAndPresetGiven
  | neitherStyleNorPresetGiven
  | styleNotFound (name : String)
  | presetNotFound (name : String) (available : List String)
  | colorSetNotFound (name : String) (available : List String)
  | plotFnFailed
  | noLastFigure
  | noFormatAndNoExtension
deriving DecidableEq, Repr

/-- Recognizer for the sequencing error produced by `_require_phase`. -/
def isInvalidSequenceErr : PError → Bool
  | .invalidSequence _ _ => true
  | _ => false

/-- The process-wide mutable state of `ppplt/__init__.py`:
`_initialized`, `_phase`, `_last_fig`, `_last_axes`, `exit_callbacks`.
Figures/axes/callbacks are modelled by opaque numeric handles. -/
structure PState where
  initialized : Bool
  phase : Phase
  lastFig : Option Nat
  lastAxes : Option Nat
  exitCallbacks : List Nat
deriving DecidableEq, Repr

/-- The state at module import time: `_phase = UNINITIALIZED`, no figure. -/
def initState : PState :=
  { initialized := false
    phase := Phase.UNINITIALIZED
    lastFig := none
    lastAxes := none
    exitCallbacks := [] }

/-- `_require_phase(*allowed)`: `none` when the current phase is allowed,
otherwise the structured invalid-call-sequence error. -/
def require_phase (allowed : List Phase) (s : PState) : Option PError :=
  if s.phase ∈ allowed then none
  else some (PError.invalidSequence s.phase allowed)

/-- `destroy()`: no-op when not initialized; otherwise resets all state,
then runs the registered exit callbacks in order and clears the list.
Returns the new state and the list of callbacks that were invoked. -/
def destroy (s : PState) : PState × List Nat :=
  if s.initialized = false then (s, [])
  else
    ({ initialized := false
       phase := Phase.UNINITIALIZED
       lastFig := none
       lastAxes := none
       exitCallbacks := [] },
     s.exitCallbacks)

/-- Registration of one cleanup callback (`exit_callbacks.append(cb)`). -/
def registerCallback (c : Nat) (s : PState) : PState :=
  { s with exitCallbacks := s.exitCallbacks ++ [c] }

/-- `init(...)` of `ppplt/__init__.py`. `themeValid` abstracts the check
`theme in ("dark", "light", "dumb")`; logging and greeting side effects are
outside the model. The returned state reflects every mutation made before
a raise. -/
def init (themeValid : Bool) (s : PState) : PState × Option PError :=
  if s.initialized then (s, some PError.alreadyInitialized)
  else
    let s1 := (destroy s).1
    if themeValid = false then (s1, some PError.unsupportedTheme)
    else
      ({ s1 with exitCallbacks := [], initialized := true, phase := Phase.INITIALIZED },
       none)

/-- Python truthiness of an `Optional[str]` argument: `None` and the empty
string are falsy. -/
def truthy : Option String → Bool
  | none => false
  | some s => s ≠ ""

/-- The color-set registry `colorsets` of `ppplt/colorset.py`, in source
order. -/
def colorsets : List (String × List String) :=
  [ ("Contrast Set 1",
     ["#D55E00", "#0072B2", "#009E73", "#F0E442", "#CC79A7", "#56B4E9", "#E69F00", "#F4A582"]),
    ("Contrast Set 2",
     ["#A6761D", "#666666", "#E7298A", "#66A61E", "#E6AB02", "#A6CEE3", "#1F78B4", "#B2DF8A"]),
    ("Muted Yet Bold",
     ["#8B3A3A", "#2E8B57", "#4682B4", "#CD5C5C", "#5F9EA0", "#8A2BE2", "#FF6347", "#FFD700"]),
    ("Refined Contrast",
     ["#8B4513", "#00CED1", "#808000", "#8FBC8F", "#2F4F4F", "#FF69B4", "#DAA520", "#4682B4"]),
    ("Modern Scientific",
     ["#E41A1C", "#377EB8", "#4DAF4A", "#984EA3", "#FF7F00", "#FFFF33", "#A65628", "#F781BF"]),
    ("Extended Elegance",
     ["#B22222", "#6A5ACD", "#2E8B57", "#FF8C00", "#20B2AA", "#9370DB", "#8FBC8F", "#A52A2A"]),
    ("Pastel High Contrast",
     ["#F4A582", "#92C5DE", "#B2DF8A", "#FC9272", "#FFD92F", "#9E0142", "#D53E4F", "#F46D43"]),
    ("Softened Bold Colors",
     ["#F28E2B", "#4E79A7", "#E15759", "#76B7B2", "#59A14F", "#EDC948", "#B07AA1", "#FF9DA7"]),
    ("Okabe-Ito",
     ["#E69F00", "#56B4E9", "#009E73", "#F0E442", "#0072B2", "#D55E00", "#CC79A7", "#000000"]),
    ("Brewer-Qual-Soft",
     ["#66C2A5", "#FC8D62", "#8DA0CB", "#E78AC3", "#A6D854", "#FFD92F", "#E5C494", "#B3B3B3"]),
    ("Grayscale-Safe",
     ["#000000", "#1A1A1A", "#404040", "#666666", "#8C8C8C", "#B3B3B3", "#D9D9D9", "#F2F2F2"]) ]

/-- The preset registry `_PRESETS` of `ppplt/presets.py`, in source order:
name maps to (style name, color-set name). -/
def PRESETS : List (String × (String × String)) :=
  [ ("ieee-modern", ("IEEE", "Modern Scientific")),
    ("ieee-contrast1", ("IEEE", "Contrast Set 1")),
    ("ieee-okabe", ("IEEE", "Okabe-Ito")),
    ("gb-modern", ("GB", "Modern Scientific")),
    ("gb-contrast2", ("GB", "Contrast Set 2")),
    ("gb-okabe", ("GB", "Okabe-Ito")),
    ("ieee-gray", ("IEEE", "Grayscale-Safe")),
    ("gb-gray", ("GB", "Grayscale-Safe")) ]

/-- Python `str.lower()` (ASCII case folding, as the registry keys are
ASCII). -/
def pyLower (s : String) : String := ⟨s.data.map Char.toLower⟩

/-- Python `str.upper()` (ASCII case folding). -/
def pyUpper (s : String) : String := ⟨s.data.map Char.toUpper⟩

/-- Index of the first registry key satisfying predicate `p`, scanning in
source order (models the lookup loops over the registries). -/
def keyIdxP {α : Type} (p : String → Bool) : List (String × α) → Option Nat
  | [] => none
  | kv :: rest =>
      if p kv.1 then some 0
      else (keyIdxP p rest).map (· + 1)

/-- `get_color_set` key search: first key whose lowercase form equals the
lowercase form of the queried name. -/
def find_color_idx (name : String) : Option Nat :=
  keyIdxP (fun k => pyLower k == pyLower name) colorsets

/-- `get_paper_preset` key search: `name.lower()` looked up directly among
the (all-lowercase) preset keys. -/
def find_preset_idx (name : String) : Option Nat :=
  keyIdxP (fun k => k == pyLower name) PRESETS

/-- Pure view of `get_color_set`: the colors for a name, or the
`ValueError` listing the available names. -/
def get_color_set (name : String) : Except PError (List String) :=
  match find_color_idx name with
  | none => Except.error (PError.colorSetNotFound name (colorsets.map Prod.fst))
  | some i => Except.ok ((colorsets.map Prod.snd).getD i [])

/-- Pure view of `get_paper_preset`: the (style, colors) pair for a name,
or the `ValueError` listing the available names. -/
def get_paper_preset (name : String) : Except PError (String × String) :=
  match find_preset_idx name with
  | none => Except.error (PError.presetNotFound name (PRESETS.map Prod.fst))
  | some i => Except.ok ((PRESETS.map Prod.snd).getD i ("", ""))

/-- `apply_style(name)`: looks up `name.upper() + ".mplstyle"` on the style
search path; `styleOk` abstracts the filesystem existence check. -/
def apply_style (styleOk : String → Bool) (name : String) : Option PError :=
  if styleOk (pyUpper name) then none else some (PError.styleNotFound name)

/-- The color-set lookup performed by `apply_color_set(name)` (the
`rcParams` mutation itself is outside the model). -/
def apply_color_set_check (name : String) : Option PError :=
  match get_color_set name with
  | Except.error e => some e
  | Except.ok _ => none

/-- `apply_paper_preset(name)`: resolve the preset, apply its style, then
its color set. -/
def apply_paper_preset (styleOk : String → Bool) (name : String) : Option PError :=
  match get_paper_preset name with
  | Except.error e => some e
  | Except.ok info =>
      match apply_style styleOk info.1 with
      | some e => some e
      | none => apply_color_set_check info.2

/-- The style/preset application performed by `set_style` after its
argument checks: `if preset: apply_paper_preset(preset) else:
apply_style(style)`. -/
def set_style_apply (styleOk : String → Bool) (style preset : Option String) : Option PError :=
  if truthy preset then apply_paper_preset styleOk (preset.getD "")
  else apply_style styleOk (style.getD "")

/-- `set_style(style=..., preset=...)` of `ppplt/presets.py`: phase gate,
mutual-exclusion checks (Python truthiness), application, then the
transition to `STYLE_SET`. -/
def set_style (styleOk : String → Bool) (style preset : Option String) (s : PState) :
    PState × Option PError :=
  match require_phase [Phase.INITIALIZED, Phase.STYLE_SET, Phase.DRAWN, Phase.SAVED] s with
  | some e => (s, some e)
  | none =>
      if truthy style && truthy preset then (s, some PError.bothStyleAndPresetGiven)
      else if !(truthy style) && !(truthy preset) then
        (s, some PError.neitherStyleNorPresetGiven)
      else
        match set_style_apply styleOk style preset with
        | some e => (s, some e)
        | none => ({ s with phase := Phase.STYLE_SET }, none)

/-- `draw(...)` of `ppplt/draw.py`: phase gate, run the plot callback
(`plotOk` abstracts whether it raises), record the produced figure/axes
handles, transition to `DRAWN`. -/
def draw (plotOk : Bool) (figId axesId : Nat) (s : PState) : PState × Option PError :=
  match require_phase [Phase.STYLE_SET, Phase.DRAWN, Phase.SAVED] s with
  | some e => (s, some e)
  | none =>
      if plotOk = false then (s, some PError.plotFnFailed)
      else
        ({ s with lastFig := some figId, lastAxes := some axesId, phase := Phase.DRAWN },
         none)

/-- Index of the last occurrence of character `c` in the list, if any. -/
def lastIdx (c : Char) : List Char → Option Nat
  | [] => none
  | x :: xs =>
      match lastIdx c xs with
      | some j => some (j + 1)
      | none => if x = c then some 0 else none

/-- The split position of `os.path.splitext` (posix): the index of the last
dot, provided it lies after the last separator and some earlier character
of the basename is not a dot (so leading dots never start an extension). -/
def splitextPos (cs : List Char) : Option Nat :=
  let sep : Int := match lastIdx '/' cs with
    | some i => (i : Int)
    | none => -1
  match lastIdx '.' cs with
  | none => none
  | some d =>
      if sep < (d : Int) then
        if (List.range d).any
            (fun k => decide (sep < (k : Int)) && decide (cs.getD k '.' ≠ '.')) then
          some d
        else none
      else none

/-- `os.path.splitext(p)[0]`. -/
def splitextBase (p : String) : String :=
  match splitextPos p.data with
  | some d => (p.data.take d).asString
  | none => p

/-- `os.path.splitext(p)[1]`. -/
def splitextExt (p : String) : String :=
  match splitextPos p.data with
  | some d => (p.data.drop d).asString
  | none => ""

/-- Python `f.lstrip(".")`: drop leading dots. -/
def lstripDots (f : String) : String :=
  (f.data.dropWhile (fun ch => ch = '.')).asString

/-- `save(path, formats=...)` of `ppplt/save.py`: phase gate, last-figure
check, then either the single-file path (requiring an extension) or one
output path per requested format, built as `base + "." + fmt` with leading
dots stripped from `fmt`. Returns (state, written paths, error). -/
def save (path : String) (formats : Option (List String)) (s : PState) :
    PState × List String × Option PError :=
  match require_phase [Phase.DRAWN, Phase.SAVED] s with
  | some e => (s, [], some e)
  | none =>
      if s.lastFig = none then (s, [], some PError.noLastFigure)
      else
        let base := splitextBase path
        let ext := splitextExt path
        match formats with
        | none =>
            if ext = "" then (s, [], some PError.noFormatAndNoExtension)
            else ({ s with phase := Phase.SAVED }, [path], none)
        | some fs =>
            ({ s with phase := Phase.SAVED },
             fs.map (fun f => base ++ "." ++ lstripDots f),
             none)

/-- The lifecycle operations of the gate, with their environment
parameters resolved (theme validity, plot-callback success, figure
handles, save arguments). -/
inductive Op where
  | initOp (themeValid : Bool)
  | setStyleOp (style preset : Option String)
  | drawOp (plotOk : Bool) (figId axesId : Nat)
  | saveOp (path : String) (formats : Option (List String))
  | teardownOp
deriving DecidableEq, Repr

/-- The five operation kinds of the documented transition table. -/
inductive OpKind where
  | initK
  | styleK
  | drawK
  | saveK
  | teardownK
deriving DecidableEq, Repr

/-- Kind of an operation. -/
def Op.kind : Op → OpKind
  | .initOp _ => .initK
  | .setStyleOp _ _ => .styleK
  | .drawOp _ _ _ => .drawK
  | .saveOp _ _ => .saveK
  | .teardownOp => .teardownK

/-- Allowed-state sets of the documented transition table (spec section
4.1). -/
def specAllowed : OpKind → List Phase
  | .initK => [Phase.UNINITIALIZED]
  | .styleK => [Phase.INITIALIZED, Phase.STYLE_SET, Phase.DRAWN, Phase.SAVED]
  | .drawK => [Phase.STYLE_SET, Phase.DRAWN, Phase.SAVED]
  | .saveK => [Phase.DRAWN, Phase.SAVED]
  | .teardownK =>
      [Phase.UNINITIALIZED, Phase.INITIALIZED, Phase.STYLE_SET, Phase.DRAWN, Phase.SAVED]

/-- Target states of the documented transition table. -/
def specTarget : OpKind → Phase
  | .initK => Phase.INITIALIZED
  | .styleK => Phase.STYLE_SET
  | .drawK => Phase.DRAWN
  | .saveK => Phase.SAVED
  | .teardownK => Phase.UNINITIALIZED

/-- One step of the documented transition table: move to the target when
the current state is in the allowed set, stay put otherwise. -/
def specStep (k : OpKind) (p : Phase) : Phase :=
  if p ∈ specAllowed k then specTarget k else p

/-- Replay of the documented transition table over a sequence of
operation kinds. -/
def specReplay : List OpKind → Phase → Phase
  | [], p => p
  | k :: ks, p => specReplay ks (specStep k p)

/-- One step of the code: dispatch an operation to the function embedding
it. `styleOk` abstracts the style-sheet filesystem. -/
def step (styleOk : String → Bool) : Op → PState → PState × Option PError
  | .initOp tv, s => init tv s
  | .setStyleOp st pr, s => set_style styleOk st pr s
  | .drawOp ok fId aId, s => draw ok fId aId s
  | .saveOp p fmts, s =>
      let r := save p fmts s
      (r.1, r.2.2)
  | .teardownOp, s => ((destroy s).1, none)

/-- Replay of the code over a sequence of operations. -/
def replay (styleOk : String → Bool) : List Op → PState → PState
  | [], s => s
  | op :: ops, s => replay styleOk ops (step styleOk op s).1

/-- An operation is well-formed when its non-gate preconditions hold, so
that the only possible failure is the lifecycle gate itself. -/
def wf (styleOk : String → Bool) : Op → Prop
  | .initOp tv => tv = true
  | .setStyleOp st pr =>
      truthy st ≠ truthy pr ∧ set_style_apply styleOk st pr = none
  | .drawOp ok _ _ => ok = true
  | .saveOp p fmts => fmts.isSome = true ∨ splitextExt p ≠ ""
  | .teardownOp => True

/-- Invariant of every reachable process state: the `_initialized` flag
mirrors the phase, and a drawn/saved phase has a recorded figure; an
uninitialized process holds no figure, axes, or callbacks. -/
def Inv (s : PState) : Prop :=
  s.initialized = decide (s.phase ≠ Phase.UNINITIALIZED)
  ∧ ((s.phase = Phase.DRAWN ∨ s.phase = Phase.SAVED) → s.lastFig.isSome = true)
  ∧ (s.initialized = false →
      s.lastFig = none ∧ s.lastAxes = none ∧ s.exitCallbacks = [])

/-- The reachable-state invariant is decidable, so concrete states can be
checked by evaluation. -/
instance decidableInv (s : PState) : Decidable (Inv s) := by
  unfold Inv
  infer_instance

/-- The error the code raises when an operation is attempted from a
disallowed state: `_require_phase`'s sequencing error for every operation
except `init`, which raises its own already-initialized error. -/
def gateError : Op → Phase → PError
  | .initOp _, _ => PError.alreadyInitialized
  | op, cur => PError.invalidSequence cur (specAllowed op.kind)

/-- A style-sheet filesystem on which every style exists (used to
instantiate the abstract `styleOk` parameter at concrete inputs). -/
def anyStyle : String → Bool := fun _ => true

/-- The state right after a successful `init` from the import-time state. -/
def s_afterInit : PState := (init true initState).1

/-- Python `round` on a rational: nearest integer, ties to even (floats
are modelled by exact rationals). -/
def pythonRound (q : ℚ) : Int :=
  if q - ⌊q⌋ < 1 / 2 then ⌊q⌋
  else if q - ⌊q⌋ > 1 / 2 then ⌊q⌋ + 1
  else if ⌊q⌋ % 2 = 0 then ⌊q⌋ else ⌊q⌋ + 1

/-- `LegendConfig` of `ppplt/draw.py` (fields the layout math reads;
handles are opaque numeric ids, physical units are exact rationals). -/
structure LegendConfig where
  labels : Option (List String) := none
  handles : Option (List Nat) := none
  loc : String := "lower center"
  ncol : Option Int := none
  lg_width : ℚ := 7 / 8
  lg_height : ℚ := 3 / 20
  border_layout : List ℚ := [0, 0, 1, 1]
  frameon : Bool := false
deriving DecidableEq, Repr

/-- A figure: physical size, the (handle, label) pairs of its plotted
elements in axes-traversal order, its layout rectangle, and the legend
drawn on it, if any. -/
structure Figure where
  width : ℚ
  height : ℚ
  plotted : List (Nat × String)
  layoutRect : List ℚ
  legend : Option (List Nat × List String × String × Int) := none
deriving DecidableEq, Repr

/-- Handle resolution in `_apply_legend`: the explicit list when supplied
(an `is not None` check, so an explicit empty list stays empty), else the
handles collected from the figure. -/
def resolve_handles (cfg : LegendConfig) (fig : Figure) : List Nat :=
  match cfg.handles with
  | some hs => hs
  | none => fig.plotted.map Prod.fst

/-- Label resolution in `_apply_legend`, mirroring `resolve_handles`. -/
def resolve_labels (cfg : LegendConfig) (fig : Figure) : List String :=
  match cfg.labels with
  | some ls => ls
  | none => fig.plotted.map Prod.snd

/-- `legend_col = cfg.ncol or max(1, int(round(W / cfg.lg_width)))`: the
explicit count when truthy (a Python `or`, so a provided `0` falls through
to the auto computation), else the width-based count clamped to 1. -/
def legend_ncol (cfg : LegendConfig) (W : ℚ) : Int :=
  match cfg.ncol with
  | some c => if c = 0 then max 1 (pythonRound (W / cfg.lg_width)) else c
  | none => max 1 (pythonRound (W / cfg.lg_width))

/-- `legend_row = math.ceil(len(labels) / legend_col)`. -/
def legend_nrow (n : Nat) (c : Int) : Int :=
  ⌈(n : ℚ) / (c : ℚ)⌉

/-- The rectangle adjustment of `_apply_legend`: shrink the top bound for
"upper center", grow the bottom bound for "lower center", otherwise leave
the base rectangle unchanged. -/
def legend_rect (loc : String) (border : List ℚ) (r : ℚ) : List ℚ :=
  if loc = "upper center" then border.set 3 (border.getD 3 0 - r)
  else if loc = "lower center" then border.set 1 (border.getD 1 0 + r)
  else border

/-- The outputs of one legend application. -/
structure LegendResult where
  ncol : Int
  nrow : Int
  newSize : ℚ × ℚ
  rect : List ℚ
  reservedRatio : ℚ
deriving DecidableEq, Repr

/-- `_apply_legend(fig, axes, cfg)`: resolve handles and labels, skip when
either is empty, else compute the column/row counts, the enlarged figure
height, the reserved-space ratio, and the adjusted layout rectangle, and
draw the figure-level legend. Returns the updated figure and the layout
outputs (`none` when the legend was skipped). -/
def apply_legend (fig : Figure) (cfg : LegendConfig) : Figure × Option LegendResult :=
  let handles := resolve_handles cfg fig
  let labels := resolve_labels cfg fig
  if handles.isEmpty || labels.isEmpty then (fig, none)
  else
    let ncol := legend_ncol cfg fig.width
    let nrow := legend_nrow labels.length ncol
    let newH := (nrow : ℚ) * cfg.lg_height + fig.height
    let r := cfg.lg_height * (nrow : ℚ) / newH
    let rect := legend_rect cfg.loc cfg.border_layout r
    ({ fig with
        height := newH
        layoutRect := rect
        legend := some (handles, labels, cfg.loc, ncol) },
     some { ncol := ncol, nrow := nrow, newSize := (fig.width, newH), rect := rect,
            reservedRatio := r })

/-- `Step` of `ppplt/pipeline.py`: a wrapped callable (modelled as a state
transformer over an explicit world `σ`), an executed flag, and the cached
result. -/
structure Step (σ α : Type) where
  func : σ → σ × α
  executed : Bool
  result : Option α

/-- A freshly constructed `Step` (`__init__`). -/
def Step.mk0 {σ α : Type} (f : σ → σ × α) : Step σ α :=
  { func := f, executed := false, result := none }

/-- `Step.run`: invoke the wrapped function and cache its result on the
first call; afterwards return the cached result without touching the
world. -/
def Step.run {σ α : Type} (st : Step σ α) (w : σ) : Step σ α × σ × Option α :=
  if st.executed then (st, w, st.result)
  else
    let p := st.func w
    ({ st with executed := true, result := some p.2 }, p.1, some p.2)

/-- `Step.__rshift__`: `a >> b` runs `a` and returns `b` untouched. -/
def Step.rshift {σ α : Type} (a b : Step σ α) (w : σ) : Step σ α × Step σ α × σ :=
  let r := Step.run a w
  (r.1, b, r.2.1)

/-- A heap of mutable cells (Python list/dict objects), addressed by
allocation index. -/
structure Heap (α : Type) where
  cells : List α
deriving DecidableEq, Repr

/-- Allocate a fresh cell holding `v`; returns the heap and the new id. -/
def Heap.alloc {α : Type} (h : Heap α) (v : α) : Heap α × Nat :=
  (⟨h.cells ++ [v]⟩, h.cells.length)

/-- Read a cell. -/
def Heap.read {α : Type} (h : Heap α) (i : Nat) (d : α) : α :=
  h.cells.getD i d

/-- Overwrite a cell (a caller mutating a returned object). -/
def Heap.write {α : Type} (h : Heap α) (i : Nat) (v : α) : Heap α :=
  ⟨h.cells.set i v⟩

/-- The heap at import time: one list cell per color-set registry entry,
in source order; the registry maps key `k` to the cell with its index. -/
def colorHeap0 : Heap (List String) := ⟨colorsets.map Prod.snd⟩

/-- The heap at import time for the preset registry. -/
def presetHeap0 : Heap (String × String) := ⟨PRESETS.map Prod.snd⟩

/-- Heap-level `get_color_set(name)`: find the registry cell, then return
`list(colorsets[key])` — a freshly allocated copy of its contents. -/
def get_color_set_h (h : Heap (List String)) (name : String) :
    Except PError (Heap (List String) × Nat) :=
  match find_color_idx name with
  | none => Except.error (PError.colorSetNotFound name (colorsets.map Prod.fst))
  | some i => Except.ok (h.alloc (h.read i []))

/-- Heap-level `get_paper_preset(name)`: find the registry cell, then
return `dict(_PRESETS[key])` — a freshly allocated copy. -/
def get_paper_preset_h (h : Heap (String × String)) (name : String) :
    Except PError (Heap (String × String) × Nat) :=
  match find_preset_idx name with
  | none => Except.error (PError.presetNotFound name (PRESETS.map Prod.fst))
  | some i => Except.ok (h.alloc (h.read i ("", "")))

/-- The contents a caller observes from `get_color_set` on heap `h`. -/
def got_colors (h : Heap (List String)) (name : String) : Option (List String) :=
  match get_color_set_h h name with
  | Except.error _ => none
  | Except.ok (h2, i2) => some (h2.read i2 [])

/-- The contents a caller observes from `get_paper_preset` on heap `h`. -/
def got_preset (h : Heap (String × String)) (name : String) : Option (String × String) :=
  match get_paper_preset_h h name with
  | Except.error _ => none
  | Except.ok (h2, i2) => some (h2.read i2 ("", ""))


/-- A state in phase `DRAWN` with a recorded figure (a typical state after
one successful `init`, `set_style`, `draw` run). -/
def sDrawn : PState :=
  { initialized := true
    phase := Phase.DRAWN
    lastFig := some 0
    lastAxes := some 0
    exitCallbacks := [2, 3] }

/-- Concrete figure used to exercise the legend calculator. -/
def figW : Figure :=
  { width := 1, height := 1, plotted := [(1, "a")], layoutRect := [0, 0, 1, 1] }

/-- Concrete legend configuration with unit footprints. -/
def cfgW : LegendConfig := { lg_width := 1, lg_height := 1 }

/-- The figure produced by applying `cfgW` to `figW`. -/
def figW2 : Figure :=
  { width := 1
    height := 2
    plotted := [(1, "a")]
    layoutRect := [0, 1 / 2, 1, 1]
    legend := some ([1], ["a"], "lower center", 1) }

/-- The layout outputs of applying `cfgW` to `figW`. -/
def rW : LegendResult :=
  { ncol := 1, nrow := 1, newSize := (1, 2), rect := [0, 1 / 2, 1, 1],
    reservedRatio := 1 / 2 }

/-- Concrete figure for the zero-column counterexample: width 7. -/
def figC : Figure :=
  { width := 7, height := 2, plotted := [], layoutRect := [0, 0, 1, 1] }

/-- Legend configuration supplying an explicit column count of `0`. -/
def cfgC0 : LegendConfig :=
  { labels := some ["a"], handles := some [1], ncol := some 0 }

end PaperPlot

namespace PaperPlot

lemma keyIdxP_lt_length {α : Type} (p : String → Bool) :
    ∀ (l : List (String × α)) (i : Nat), keyIdxP p l = some i → i < l.length := by
  intro l
  induction l with
  | nil => intro i h; simp [keyIdxP] at h
  | cons kv rest ih =>
      intro i h
      by_cases hp : p kv.1
      · simp [keyIdxP, hp] at h
        simp only [List.length_cons]
        omega
      · simp [keyIdxP, hp] at h
        obtain ⟨j, hj, rfl⟩ := h
        have := ih j hj
        simp only [List.length_cons]
        omega

lemma getD_set_of_ne {α : Type} (l : List α) (i j : Nat) (v d : α) (h : i ≠ j) :
    (l.set i v).getD j d = l.getD j d := by
  simp [List.getD, List.getElem?_set_ne h]

lemma getD_append_of_lt {α : Type} (l l2 : List α) (j : Nat) (d : α) (h : j < l.length) :
    (l ++ l2).getD j d = l.getD j d := by
  simp [List.getD, List.getElem?_append_left h]

lemma getD_append_self {α : Type} (l : List α) (v d : α) :
    (l ++ [v]).getD l.length d = v := by
  simp [List.getD, List.getElem?_append_right (Nat.le_refl l.length)]

lemma inv_initState : Inv initState := by
  refine ⟨rfl, ?_, ?_⟩ <;> intro h <;> simp [initState] at h ⊢


/-- C7: `initialize` succeeds only from `UNINITIALIZED`, where it
transitions to `INITIALIZED`; from any other state it raises the
already-initialized error and leaves the state unchanged. -/
theorem init_only_from_uninitialized (s : PState) (hI : Inv s) (tv : Bool) :
    ((init tv s).2 = none → s.phase = Phase.UNINITIALIZED)
    ∧ (s.phase = Phase.UNINITIALIZED → tv = true →
        init tv s =
          ({ s with exitCallbacks := [], initialized := true, phase := Phase.INITIALIZED },
            none))
    ∧ (s.phase ≠ Phase.UNINITIALIZED →
        init tv s = (s, some PError.alreadyInitialized)) := by
  obtain ⟨h1, h2, h3⟩ := hI
  refine ⟨?_, ?_, ?_⟩
  · intro h
    by_contra hne
    have hi : s.initialized = true := by rw [h1]; simp [hne]
    simp [init, hi] at h
  · intro hp htv
    have hi : s.initialized = false := by rw [h1]; simp [hp]
    simp [init, hi, htv, destroy]
  · intro hne
    have hi : s.initialized = true := by rw [h1]; simp [hne]
    simp [init, hi]

/-- Witness for C7 at concrete states: success from the import-time state
and failure from the state after one `init`. -/
theorem init_only_from_uninitialized_witness :
    init true s_afterInit = (s_afterInit, some PError.alreadyInitialized) :=
  (init_only_from_uninitialized s_afterInit (by decide) true).2.2 (by decide)

/-- C6: from any of `INITIALIZED`, `STYLE_SET`, `DRAWN`, `SAVED`,
`set_style` raises the configuration error when both a style and a preset
are supplied, and when neither is, leaving the state unchanged in both
cases; when it succeeds, the state has transitioned to `STYLE_SET`. -/
theorem set_style_exclusive_args (styleOk : String → Bool) (s : PState)
    (style preset : Option String)
    (hp : s.phase = Phase.INITIALIZED ∨ s.phase = Phase.STYLE_SET
        ∨ s.phase = Phase.DRAWN ∨ s.phase = Phase.SAVED) :
    (truthy style = true → truthy preset = true →
      set_style styleOk style preset s = (s, some PError.bothStyleAndPresetGiven))
    ∧ (truthy style = false → truthy preset = false →
      set_style styleOk style preset s = (s, some PError.neitherStyleNorPresetGiven))
    ∧ ((set_style styleOk style preset s).2 = none →
      (set_style styleOk style preset s).1 = { s with phase := Phase.STYLE_SET }) := by
  have hreq : require_phase
      [Phase.INITIALIZED, Phase.STYLE_SET, Phase.DRAWN, Phase.SAVED] s = none := by
    rcases hp with h | h | h | h <;> simp [require_phase, h]
  refine ⟨?_, ?_, ?_⟩
  · intro hs hpre
    simp [set_style, hreq, hs, hpre]
  · intro hs hpre
    simp [set_style, hreq, hs, hpre]
  · intro h
    by_cases hs : truthy style = true <;> by_cases hpre : truthy preset = true <;>
      simp [set_style, hreq, hs, hpre] at h ⊢ <;>
      rcases happ : set_style_apply styleOk style preset with _ | e <;>
      simp [happ] at h ⊢

/-- Witness for C6: from the drawn state, supplying both arguments fails
and supplying exactly a preset succeeds into `STYLE_SET`. -/
theorem set_style_exclusive_args_witness :
    set_style anyStyle (some "IEEE") (some "ieee-modern") sDrawn
      = (sDrawn, some PError.bothStyleAndPresetGiven) :=
  (set_style_exclusive_args anyStyle sDrawn (some "IEEE") (some "ieee-modern")
      (by decide)).1 (by decide) (by decide)

/-- C4: from `DRAWN` or `SAVED`, save with `formats=["png","pdf"]` and path
`"out/fig"` writes exactly `["out/fig.png", "out/fig.pdf"]` in order; save
with no formats and path `"out/fig.png"` writes exactly `["out/fig.png"]`;
save with no formats and an extensionless path raises the configuration
error and leaves the state unchanged; and in general with a format list
each written path is the base path plus "." plus the format. -/
theorem save_path_construction (s : PState) (hI : Inv s)
    (hp : s.phase = Phase.DRAWN ∨ s.phase = Phase.SAVED)
    (p : String) (fs : List String) (q : String) (hq : splitextExt q = "") :
    save "out/fig" (some ["png", "pdf"]) s
      = ({ s with phase := Phase.SAVED }, ["out/fig.png", "out/fig.pdf"], none)
    ∧ save "out/fig.png" none s
      = ({ s with phase := Phase.SAVED }, ["out/fig.png"], none)
    ∧ save q none s = (s, [], some PError.noFormatAndNoExtension)
    ∧ save p (some fs) s
      = ({ s with phase := Phase.SAVED },
          fs.map (fun f => splitextBase p ++ "." ++ lstripDots f), none) := by
  have hreq : require_phase [Phase.DRAWN, Phase.SAVED] s = none := by
    rcases hp with h | h <;> simp [require_phase, h]
  have hfig : ¬ s.lastFig = none := by
    have := hI.2.1 (by rcases hp with h | h <;> simp [h])
    intro hno
    rw [hno] at this
    simp at this
  have e1 : splitextExt "out/fig.png" = ".png" := by decide
  have e2 : (["png", "pdf"].map
      (fun f => splitextBase "out/fig" ++ "." ++ lstripDots f))
      = ["out/fig.png", "out/fig.pdf"] := by decide
  refine ⟨?_, ?_, ?_, ?_⟩
  · rw [show (["out/fig.png", "out/fig.pdf"] : List String) = _ from e2.symm]
    simp [save, hreq, hfig]
  · simp [save, hreq, hfig, e1]
  · simp [save, hreq, hfig, hq]
  · simp [save, hreq, hfig]

/-- Witness for C4 at the concrete drawn state and path "out/fig". -/
theorem save_path_construction_witness :
    save "out/fig" (some ["png", "pdf"]) sDrawn
      = ({ sDrawn with phase := Phase.SAVED }, ["out/fig.png", "out/fig.pdf"], none) :=
  (save_path_construction sDrawn (by decide) (Or.inl (by decide))
      "x" [] "out/fig" (by decide)).1

/-- C5: `teardown` is allowed from every state; one call resets the phase,
clears the figure/axes references, runs every registered callback exactly
once in registration order (registration appends to the list), and clears
the list; a second consecutive call returns the same state and runs no
callback. -/
theorem teardown_idempotent (s : PState) (hI : Inv s) (c : Nat) :
    (destroy s).1.phase = Phase.UNINITIALIZED
    ∧ (destroy s).1.lastFig = none
    ∧ (destroy s).1.lastAxes = none
    ∧ (destroy s).1.exitCallbacks = []
    ∧ (s.initialized = true → (destroy s).2 = s.exitCallbacks)
    ∧ (s.initialized = false → destroy s = (s, []))
    ∧ destroy (destroy s).1 = ((destroy s).1, [])
    ∧ (registerCallback c s).exitCallbacks = s.exitCallbacks ++ [c] := by
  obtain ⟨h1, h2, h3⟩ := hI
  by_cases hi : s.initialized = true
  · simp [destroy, hi, registerCallback]
  · have hi0 : s.initialized = false := by simpa using hi
    have hup : s.phase = Phase.UNINITIALIZED := by
      by_contra hne
      rw [h1] at hi0
      simp [hne] at hi0
    obtain ⟨hf, ha, hcb⟩ := h3 hi0
    simp [destroy, hi0, hup, hf, ha, hcb, registerCallback]

/-- Witness for C5 at the concrete drawn state (two registered
callbacks run in order, then the second call is a no-op). -/
theorem teardown_idempotent_witness :
    (destroy sDrawn).1.phase = Phase.UNINITIALIZED
    ∧ (destroy sDrawn).2 = [2, 3]
    ∧ destroy (destroy sDrawn).1 = ((destroy sDrawn).1, []) := by
  have h := teardown_idempotent sDrawn (by decide) 0
  exact ⟨h.1, h.2.2.2.2.1 (by decide), h.2.2.2.2.2.2.1⟩

lemma inv_after_reset : Inv
    { initialized := false, phase := Phase.UNINITIALIZED, lastFig := none,
      lastAxes := none, exitCallbacks := [] } := by
  decide

lemma phase_ne_of_mem_style (s : PState)
    (hmem : s.phase ∈ [Phase.INITIALIZED, Phase.STYLE_SET, Phase.DRAWN, Phase.SAVED]) :
    s.phase ≠ Phase.UNINITIALIZED := by
  intro h
  rw [h] at hmem
  simp at hmem


lemma inv_mk_active (ini : Bool) (p : Phase) (lf la : Option Nat) (cbs : List Nat)
    (hin : ini = true) (hnu : p ≠ Phase.UNINITIALIZED)
    (hfig : (p = Phase.DRAWN ∨ p = Phase.SAVED) → lf.isSome = true) :
    Inv ⟨ini, p, lf, la, cbs⟩ := by
  subst hin
  refine ⟨by simp [hnu], hfig, ?_⟩
  intro h
  simp at h

lemma step_inv (styleOk : String → Bool) (op : Op) (s : PState) (hI : Inv s) :
    Inv (step styleOk op s).1 := by
  have h1 := hI.1
  cases op with
  | initOp tv =>
      by_cases hi : s.initialized = true
      · simpa [step, init, hi] using hI
      · have hi0 : s.initialized = false := by simpa using hi
        by_cases htv : tv = true
        · simp only [step, init, hi0, htv]
          simp [destroy, Inv]
        · have htv0 : tv = false := by simpa using htv
          simpa [step, init, hi0, htv0, destroy] using hI
  | setStyleOp st pr =>
      by_cases hmem : s.phase ∈ [Phase.INITIALIZED, Phase.STYLE_SET, Phase.DRAWN, Phase.SAVED]
      · have hin : s.initialized = true := by
          rw [h1]
          simp [phase_ne_of_mem_style s hmem]
        by_cases hs : truthy st = true <;> by_cases hp : truthy pr = true <;>
          rcases happ : set_style_apply styleOk st pr with _ | e <;>
          · simp only [step, set_style, require_phase, hmem, if_true, hs, hp, happ]
            first
              | exact hI
              | simpa using hI
              | exact inv_mk_active _ _ _ _ _ hin (by simp)
                  (fun h => by rcases h with h | h <;> simp at h)
      · have hreq : require_phase
            [Phase.INITIALIZED, Phase.STYLE_SET, Phase.DRAWN, Phase.SAVED] s
            = some (PError.invalidSequence s.phase
                [Phase.INITIALIZED, Phase.STYLE_SET, Phase.DRAWN, Phase.SAVED]) := by
          simp [require_phase, hmem]
        simpa [step, set_style, hreq] using hI
  | drawOp ok fId aId =>
      by_cases hmem : s.phase ∈ [Phase.STYLE_SET, Phase.DRAWN, Phase.SAVED]
      · have hne : s.phase ≠ Phase.UNINITIALIZED := by
          intro h
          rw [h] at hmem
          simp at hmem
        have hin : s.initialized = true := by rw [h1]; simp [hne]
        by_cases hok : ok = true
        · simp only [step, draw, require_phase, hmem, if_true, hok]
          simp only [show (true = false) = False by simp, if_false]
          exact inv_mk_active _ _ _ _ _ hin (by simp) (fun _ => rfl)
        · have hok0 : ok = false := by simpa using hok
          simpa [step, draw, require_phase, hmem, hok0] using hI
      · have hreq : require_phase [Phase.STYLE_SET, Phase.DRAWN, Phase.SAVED] s
            = some (PError.invalidSequence s.phase
                [Phase.STYLE_SET, Phase.DRAWN, Phase.SAVED]) := by
          simp [require_phase, hmem]
        simpa [step, draw, hreq] using hI
  | saveOp p fmts =>
      by_cases hmem : s.phase ∈ [Phase.DRAWN, Phase.SAVED]
      · have hds : s.phase = Phase.DRAWN ∨ s.phase = Phase.SAVED := by
          simpa using hmem
        have hfig : s.lastFig.isSome = true := hI.2.1 hds
        have hfig2 : ¬ s.lastFig = none := by
          intro h
          rw [h] at hfig
          simp at hfig
        have hin : s.initialized = true := by
          rw [h1]
          rcases hds with h | h <;> simp [h]
        cases fmts with
        | none =>
            by_cases hext : splitextExt p = ""
            · simpa [step, save, require_phase, hmem, hfig2, hext] using hI
            · simp only [step, save, require_phase, hmem, if_true, hfig2, if_false,
                if_neg hext]
              exact inv_mk_active _ _ _ _ _ hin (by simp) (fun _ => hfig)
        | some fs =>
            simp only [step, save, require_phase, hmem, if_true, hfig2, if_false]
            exact inv_mk_active _ _ _ _ _ hin (by simp) (fun _ => hfig)
      · have hreq : require_phase [Phase.DRAWN, Phase.SAVED] s
            = some (PError.invalidSequence s.phase [Phase.DRAWN, Phase.SAVED]) := by
          simp [require_phase, hmem]
        simpa [step, save, hreq] using hI
  | teardownOp =>
      by_cases hi : s.initialized = true
      · simp only [step, destroy, hi]
        simpa using inv_after_reset
      · have hi0 : s.initialized = false := by simpa using hi
        simpa [step, destroy, hi0] using hI

lemma step_phase_wf (styleOk : String → Bool) (op : Op) (s : PState) (hI : Inv s)
    (hwf : wf styleOk op) :
    (step styleOk op s).1.phase = specStep op.kind s.phase := by
  have h1 := hI.1
  cases op with
  | initOp tv =>
      have htv : tv = true := hwf
      by_cases hi : s.initialized = true
      · have hne : s.phase ≠ Phase.UNINITIALIZED := by
          intro h
          rw [h1, h] at hi
          simp at hi
        simp [step, init, hi, specStep, specAllowed, specTarget, Op.kind, hne]
      · have hi0 : s.initialized = false := by simpa using hi
        have hup : s.phase = Phase.UNINITIALIZED := by
          by_contra hne
          rw [h1] at hi0
          simp [hne] at hi0
        simp [step, init, hi0, htv, destroy, specStep, specAllowed, specTarget,
          Op.kind, hup]
  | setStyleOp st pr =>
      obtain ⟨hxor, happ0⟩ := hwf
      by_cases hmem : s.phase ∈ [Phase.INITIALIZED, Phase.STYLE_SET, Phase.DRAWN, Phase.SAVED]
      · have hmem2 := hmem
        simp only [List.mem_cons, List.not_mem_nil, or_false, List.mem_singleton] at hmem2
        by_cases hs : truthy st = true <;> by_cases hp : truthy pr = true
        · exact absurd (hs.trans hp.symm) hxor
        · simp [step, set_style, require_phase, hmem, hs, hp, happ0, specStep,
            specAllowed, specTarget, Op.kind, hmem2]
        · simp [step, set_style, require_phase, hmem, hs, hp, happ0, specStep,
            specAllowed, specTarget, Op.kind, hmem2]
        · have hs0 : truthy st = false := by simpa using hs
          have hp0 : truthy pr = false := by simpa using hp
          exact absurd (hs0.trans hp0.symm) hxor
      · have hmem2 := hmem
        simp only [List.mem_cons, List.not_mem_nil, or_false, List.mem_singleton] at hmem2
        simp [step, set_style, require_phase, hmem, specStep, specAllowed,
          specTarget, Op.kind, hmem2]
  | drawOp ok fId aId =>
      have hok : ok = true := hwf
      by_cases hmem : s.phase ∈ [Phase.STYLE_SET, Phase.DRAWN, Phase.SAVED]
      · have hmem2 := hmem
        simp only [List.mem_cons, List.not_mem_nil, or_false, List.mem_singleton] at hmem2
        simp [step, draw, require_phase, hmem, hok, specStep, specAllowed,
          specTarget, Op.kind, hmem2]
      · have hmem2 := hmem
        simp only [List.mem_cons, List.not_mem_nil, or_false, List.mem_singleton] at hmem2
        simp [step, draw, require_phase, hmem, specStep, specAllowed, specTarget,
          Op.kind, hmem2]
  | saveOp p fmts =>
      by_cases hmem : s.phase ∈ [Phase.DRAWN, Phase.SAVED]
      · have hds : s.phase = Phase.DRAWN ∨ s.phase = Phase.SAVED := by simpa using hmem
        have hfig : s.lastFig.isSome = true := hI.2.1 hds
        have hfig2 : ¬ s.lastFig = none := by
          intro h
          rw [h] at hfig
          simp at hfig
        cases fmts with
        | none =>
            have hext : splitextExt p ≠ "" := by
              rcases hwf with h | h
              · simp at h
              · exact h
            simp [step, save, require_phase, hmem, hfig2, hext, specStep,
              specAllowed, specTarget, Op.kind, hds]
        | some fs =>
            simp [step, save, require_phase, hmem, hfig2, specStep, specAllowed,
              specTarget, Op.kind, hds]
      · have hmem2 := hmem
        simp only [List.mem_cons, List.not_mem_nil, or_false, List.mem_singleton] at hmem2
        simp [step, save, require_phase, hmem, specStep, specAllowed, specTarget,
          Op.kind, hmem2]
  | teardownOp =>
      by_cases hi : s.initialized = true
      · simp [step, destroy, hi, specStep, specAllowed, specTarget, Op.kind]
        cases s.phase <;> simp
      · have hi0 : s.initialized = false := by simpa using hi
        have hup : s.phase = Phase.UNINITIALIZED := by
          by_contra hne
          rw [h1] at hi0
          simp [hne] at hi0
        simp [step, destroy, hi0, specStep, specAllowed, specTarget, Op.kind, hup]

lemma step_gate_fail (styleOk : String → Bool) (op : Op) (s : PState) (hI : Inv s)
    (hbad : s.phase ∉ specAllowed op.kind) :
    step styleOk op s = (s, some (gateError op s.phase)) := by
  have h1 := hI.1
  cases op with
  | initOp tv =>
      have hne : s.phase ≠ Phase.UNINITIALIZED := by
        intro h
        rw [h] at hbad
        simp [specAllowed, Op.kind] at hbad
      have hi : s.initialized = true := by rw [h1]; simp [hne]
      simp [step, init, hi, gateError]
  | setStyleOp st pr =>
      have hmem : s.phase ∉ [Phase.INITIALIZED, Phase.STYLE_SET, Phase.DRAWN, Phase.SAVED] := by
        simpa [specAllowed, Op.kind] using hbad
      simp [step, set_style, require_phase, hmem, gateError, specAllowed, Op.kind]
  | drawOp ok fId aId =>
      have hmem : s.phase ∉ [Phase.STYLE_SET, Phase.DRAWN, Phase.SAVED] := by
        simpa [specAllowed, Op.kind] using hbad
      simp [step, draw, require_phase, hmem, gateError, specAllowed, Op.kind]
  | saveOp p fmts =>
      have hmem : s.phase ∉ [Phase.DRAWN, Phase.SAVED] := by
        simpa [specAllowed, Op.kind] using hbad
      simp [step, save, require_phase, hmem, gateError, specAllowed, Op.kind]
  | teardownOp =>
      exfalso
      apply hbad
      cases s.phase <;> simp [specAllowed, Op.kind]

lemma replay_phase_spec (styleOk : String → Bool) (ops : List Op) (s : PState)
    (hI : Inv s) (hwf : ∀ op ∈ ops, wf styleOk op) :
    (replay styleOk ops s).phase = specReplay (ops.map Op.kind) s.phase := by
  induction ops generalizing s with
  | nil => rfl
  | cons op rest ih =>
      simp only [replay, List.map_cons, specReplay]
      rw [← step_phase_wf styleOk op s hI (hwf op (by simp))]
      exact ih (step styleOk op s).1 (step_inv styleOk op s hI)
        (fun o ho => hwf o (by simp [ho]))

/-- C1 (amended): replaying any sequence of well-formed lifecycle
operations from the import-time state drives the gate exactly along the
documented transition table; and any operation invoked from a reachable
state outside its allowed set leaves the state unchanged and raises the
gate error — the sequencing error carrying the current state and the
allowed set for `set_style`/`draw`/`save`, and the already-initialized
error for `initialize` (which therefore does not name the current state
and allowed set; see the counterexample). -/
theorem lifecycle_gate_replay (styleOk : String → Bool) (ops : List Op)
    (hwf : ∀ op ∈ ops, wf styleOk op) (op : Op) (s : PState) (hI : Inv s)
    (hbad : s.phase ∉ specAllowed op.kind) :
    (replay styleOk ops initState).phase
      = specReplay (ops.map Op.kind) Phase.UNINITIALIZED
    ∧ step styleOk op s = (s, some (gateError op s.phase)) :=
  ⟨replay_phase_spec styleOk ops initState inv_initState hwf,
   step_gate_fail styleOk op s hI hbad⟩

/-- Witness for C1: a full init/style/draw/save replay lands in `SAVED` as
the table prescribes, and a `draw` attempted right after `init` fails with
the sequencing error carrying the current state and allowed set. -/
theorem lifecycle_gate_replay_witness :
    (replay anyStyle
        [Op.initOp true, Op.setStyleOp none (some "ieee-modern"),
          Op.drawOp true 0 0, Op.saveOp "out/fig.png" none] initState).phase
      = Phase.SAVED
    ∧ step anyStyle (Op.drawOp true 1 1) s_afterInit
      = (s_afterInit,
          some (PError.invalidSequence Phase.INITIALIZED
            [Phase.STYLE_SET, Phase.DRAWN, Phase.SAVED])) := by
  have h := lifecycle_gate_replay anyStyle
    [Op.initOp true, Op.setStyleOp none (some "ieee-modern"),
      Op.drawOp true 0 0, Op.saveOp "out/fig.png" none]
    (by
      intro o ho
      simp only [List.mem_cons, List.not_mem_nil, or_false] at ho
      rcases ho with rfl | rfl | rfl | rfl
      · rfl
      · exact ⟨by decide, by decide⟩
      · rfl
      · exact Or.inr (by decide))
    (Op.drawOp true 1 1) s_afterInit (by decide) (by decide)
  refine ⟨?_, ?_⟩
  · rw [h.1]
    decide
  · exact h.2

/-- Counterexample to C1 as stated: from an initialized state, `initialize`
does raise and does leave the state unchanged, but its error is the
already-initialized error, not the sequencing error naming the current
state and the allowed set. -/
theorem lifecycle_gate_counterexample :
    step anyStyle (Op.initOp true) s_afterInit
      = (s_afterInit, some PError.alreadyInitialized)
    ∧ isInvalidSequenceErr PError.alreadyInitialized = false :=
  ⟨by decide, rfl⟩

lemma apply_legend_inv (fig fig2 : Figure) (cfg : LegendConfig) (r : LegendResult)
    (happ : apply_legend fig cfg = (fig2, some r)) :
    r.ncol = legend_ncol cfg fig.width
    ∧ r.nrow = legend_nrow (resolve_labels cfg fig).length (legend_ncol cfg fig.width)
    ∧ r.newSize = (fig.width, (r.nrow : ℚ) * cfg.lg_height + fig.height)
    ∧ r.reservedRatio
      = cfg.lg_height * (r.nrow : ℚ) / ((r.nrow : ℚ) * cfg.lg_height + fig.height)
    ∧ r.rect = legend_rect cfg.loc cfg.border_layout r.reservedRatio
    ∧ fig2.width = fig.width
    ∧ fig2.height = (r.nrow : ℚ) * cfg.lg_height + fig.height
    ∧ fig2.layoutRect = r.rect
    ∧ fig2.plotted = fig.plotted := by
  simp only [apply_legend] at happ
  by_cases hemp : ((resolve_handles cfg fig).isEmpty || (resolve_labels cfg fig).isEmpty) = true
  · rw [if_pos hemp] at happ
    simp at happ
  · rw [if_neg hemp] at happ
    simp only [Prod.mk.injEq, Option.some.injEq] at happ
    obtain ⟨hf, hr⟩ := happ
    subst hr
    subst hf
    exact ⟨rfl, rfl, rfl, rfl, rfl, rfl, rfl, rfl, rfl⟩

lemma apply_legend_figW : apply_legend figW cfgW = (figW2, some rW) := by
  simp only [apply_legend, resolve_handles, resolve_labels, figW, cfgW]
  norm_num [legend_ncol, legend_nrow, pythonRound, legend_rect, figW2, rW]
  decide

/-- C2 (amended): the effective column count equals the provided count
when a nonzero one is supplied; a missing or zero count is auto-computed
as `max 1 (round(W / u_w))`; the row count is `ceil(n / columns)`; and the
documented instances hold: 10 labels in 4 columns give 3 rows, 8 labels in
4 columns give 2 rows, width 7.0 with entry width 0.875 gives 8 columns,
and width 0.1 clamps to 1 column. -/
theorem legend_columns_rows (cfg : LegendConfig) (W : ℚ) (c : Int)
    (hc : cfg.ncol = some c) (hcnz : c ≠ 0)
    (cfg2 : LegendConfig) (h2 : cfg2.ncol = none ∨ cfg2.ncol = some 0)
    (hw : cfg2.lg_width = 7 / 8)
    (cfg3 : LegendConfig) (fig fig2 : Figure) (r : LegendResult)
    (happ : apply_legend fig cfg3 = (fig2, some r)) :
    legend_ncol cfg W = c
    ∧ legend_ncol cfg2 W = max 1 (pythonRound (W / cfg2.lg_width))
    ∧ r.ncol = legend_ncol cfg3 fig.width
    ∧ r.nrow = legend_nrow (resolve_labels cfg3 fig).length r.ncol
    ∧ legend_nrow 10 4 = 3
    ∧ legend_nrow 8 4 = 2
    ∧ legend_ncol cfg2 7 = 8
    ∧ legend_ncol cfg2 (1 / 10) = 1 := by
  obtain ⟨hr1, hr2, _⟩ := apply_legend_inv fig fig2 cfg3 r happ
  refine ⟨?_, ?_, hr1, ?_, ?_, ?_, ?_, ?_⟩
  · simp [legend_ncol, hc, hcnz]
  · rcases h2 with h | h <;> simp [legend_ncol, h]
  · rw [hr1]
    exact hr2
  · unfold legend_nrow
    rw [Int.ceil_eq_iff]
    norm_num
  · unfold legend_nrow
    rw [Int.ceil_eq_iff]
    norm_num
  · rcases h2 with h | h <;> norm_num [legend_ncol, h, hw, pythonRound]
  · rcases h2 with h | h <;> norm_num [legend_ncol, h, hw, pythonRound]

/-- Witness for C2 (amended) at a concrete legend application with one
label and unit footprints, explicit count 4 on one configuration and the
default-width automatic configuration on the other. -/
theorem legend_columns_rows_witness :
    legend_ncol { ncol := some 4 } 7 = 4 ∧ legend_nrow 10 4 = 3 := by
  have h := legend_columns_rows { ncol := some 4 } 7 4 rfl (by decide)
    { ncol := none } (Or.inl rfl) rfl cfgW figW figW2 rW apply_legend_figW
  exact ⟨h.1, h.2.2.2.2.1⟩

/-- Counterexample to C2 as stated: an explicitly provided column count of
`0` is not used — `cfg.ncol or ...` treats `0` as absent, so the resolved
column count is the width-based `8`, not the provided `0`. -/
theorem legend_columns_counterexample :
    ((apply_legend figC cfgC0).2.map LegendResult.ncol) = some 8
    ∧ ((0 : Int) = 8) = False := by
  constructor
  · simp only [apply_legend, resolve_handles, resolve_labels, figC, cfgC0]
    norm_num [legend_ncol, pythonRound]
  · simp

/-- C3: for every applied legend, the new figure height is the old height
plus `rows * u_h`, the reserved ratio is `(rows * u_h) / new_height`, and
the content rectangle adjusts the top bound down by the ratio for
"upper center", the bottom bound up by the ratio for "lower center", and
is the unchanged base rectangle for every other anchor. -/
theorem legend_reserved_space (fig fig2 : Figure) (cfg : LegendConfig)
    (r : LegendResult) (happ : apply_legend fig cfg = (fig2, some r))
    (l b rr t : ℚ) (hb : cfg.border_layout = [l, b, rr, t]) :
    r.newSize.2 = fig.height + (r.nrow : ℚ) * cfg.lg_height
    ∧ r.reservedRatio = ((r.nrow : ℚ) * cfg.lg_height) / r.newSize.2
    ∧ (cfg.loc = "upper center" → r.rect = [l, b, rr, t - r.reservedRatio])
    ∧ (cfg.loc = "lower center" → r.rect = [l, b + r.reservedRatio, rr, t])
    ∧ (cfg.loc ≠ "upper center" → cfg.loc ≠ "lower center" → r.rect = [l, b, rr, t])
    ∧ fig2.width = fig.width ∧ fig2.height = r.newSize.2
    ∧ fig2.layoutRect = r.rect := by
  obtain ⟨_, _, h3, h4, h5, h6, h7, h8, _⟩ := apply_legend_inv fig fig2 cfg r happ
  have hsnd : r.newSize.2 = (r.nrow : ℚ) * cfg.lg_height + fig.height := by
    rw [h3]
  refine ⟨?_, ?_, ?_, ?_, ?_, h6, ?_, h8⟩
  · rw [hsnd]
    ring
  · rw [h4, hsnd]
    ring_nf
  · intro hloc
    rw [h5, hb, hloc]
    simp [legend_rect, List.getD]
  · intro hloc
    rw [h5, hb, hloc]
    have hne : ("lower center" : String) ≠ "upper center" := by decide
    simp [legend_rect, hne, List.getD]
  · intro hloc1 hloc2
    rw [h5, hb]
    simp [legend_rect, hloc1, hloc2]
  · rw [h7, hsnd]

/-- Witness for C3 at the concrete one-label legend application with
anchor "lower center": the height doubles and the bottom bound rises by
the ratio one half. -/
theorem legend_reserved_space_witness :
    rW.newSize.2 = figW.height + (rW.nrow : ℚ) * cfgW.lg_height
    ∧ rW.rect = [0, 0 + rW.reservedRatio, 1, 1] := by
  have h := legend_reserved_space figW figW2 cfgW rW apply_legend_figW 0 0 1 1 rfl
  exact ⟨h.1, h.2.2.2.1 rfl⟩

/-- C8: when the resolved label or handle list is empty — in particular
when the figure has no plotted elements and neither labels nor handles
were supplied — the legend application is skipped and the figure is
returned unchanged (size and rectangle untouched). -/
theorem legend_skip_on_empty (fig : Figure) (cfg : LegendConfig)
    (h : resolve_labels cfg fig = [] ∨ resolve_handles cfg fig = [])
    (fig1 : Figure) (cfg1 : LegendConfig) (hplot : fig1.plotted = [])
    (hh : cfg1.handles = none) (_hl : cfg1.labels = none) :
    apply_legend fig cfg = (fig, none)
    ∧ apply_legend fig1 cfg1 = (fig1, none) := by
  constructor
  · have hemp : ((resolve_handles cfg fig).isEmpty
        || (resolve_labels cfg fig).isEmpty) = true := by
      rcases h with h | h <;> simp [h]
    simp [apply_legend, hemp]
  · have hres : resolve_handles cfg1 fig1 = [] := by
      simp [resolve_handles, hh, hplot]
    simp [apply_legend, hres]

/-- Witness for C8: the plotless figure with a default configuration gets
no legend and is returned unchanged. -/
theorem legend_skip_on_empty_witness :
    apply_legend figC { } = (figC, none) :=
  (legend_skip_on_empty figC { } (Or.inl (by decide)) figC { } (by decide)
      rfl rfl).1

/-- C9: a fresh `Step.run` invokes the wrapped function once and caches
the result; a step whose executed flag is set returns the cached result
and leaves the world untouched (the function is never re-invoked); and
`a >> b` runs `a` and hands back `b` exactly as given, unexecuted. -/
theorem step_runs_once (σ α : Type) (f : σ → σ × α) (w w2 : σ)
    (st : Step σ α) (hex : st.executed = true) (b : Step σ α) :
    Step.run (Step.mk0 f) w
      = ({ func := f, executed := true, result := some (f w).2 }, (f w).1, some (f w).2)
    ∧ Step.run st w2 = (st, w2, st.result)
    ∧ Step.rshift (Step.mk0 f) b w
      = ((Step.run (Step.mk0 f) w).1, b, (f w).1) := by
  refine ⟨?_, ?_, ?_⟩
  · simp [Step.run, Step.mk0]
  · simp [Step.run, hex]
  · simp [Step.rshift, Step.run, Step.mk0]

/-- Witness for C9: an already-executed counter step returns its cached
value and leaves the counter world unchanged. -/
theorem step_runs_once_witness :
    Step.run (⟨fun n => (n + 1, n), true, some 5⟩ : Step Nat Nat) 7
      = (⟨fun n => (n + 1, n), true, some 5⟩, 7, some 5) :=
  (step_runs_once Nat Nat (fun n => (n + 1, n)) 0 7
      ⟨fun n => (n + 1, n), true, some 5⟩ rfl
      ⟨fun n => (n + 1, n), false, none⟩).2.1

lemma alloc_read_self {α : Type} (h : Heap α) (val d : α) :
    ((h.alloc val).1).read (h.alloc val).2 d = val := by
  unfold Heap.alloc Heap.read
  exact getD_append_self h.cells val d

lemma heap_copy_frame {α : Type} (h0 : Heap α) (d x : α) (v : α) (j : Nat)
    (hj : j < h0.cells.length) :
    ((⟨h0.cells ++ [x]⟩ : Heap α).write h0.cells.length v).read j d = h0.read j d := by
  have hne : h0.cells.length ≠ j := by omega
  unfold Heap.write Heap.read
  calc ((h0.cells ++ [x]).set h0.cells.length v).getD j d
      = (h0.cells ++ [x]).getD j d := getD_set_of_ne _ _ _ _ _ hne
    _ = h0.cells.getD j d := getD_append_of_lt _ _ _ _ hj

lemma got_colors_eq (H : Heap (List String)) (n : String) (i : Nat)
    (hf : find_color_idx n = some i) :
    got_colors H n = some (H.read i []) := by
  simp only [got_colors, get_color_set_h, hf]
  exact congrArg some (alloc_read_self H _ [])

lemma got_preset_eq (H : Heap (String × String)) (n : String) (i : Nat)
    (hf : find_preset_idx n = some i) :
    got_preset H n = some (H.read i ("", "")) := by
  simp only [got_preset, get_paper_preset_h, hf]
  exact congrArg some (alloc_read_self H _ ("", ""))

/-- C10: color-set and preset lookup are case-insensitive; both getters
return a freshly allocated copy of the registry cell, so overwriting the
returned object leaves every registry cell unchanged and a later lookup of
the same name still returns the original values; an unknown name fails
with the error listing the valid alternatives. -/
theorem registry_copy_semantics
    (n1 n2 : String) (hlow : pyLower n1 = pyLower n2)
    (i : Nat) (hfound : find_color_idx n1 = some i)
    (v : List String) (j : Nat) (hj : j < colorsets.length)
    (bad : String) (hbad : find_color_idx bad = none)
    (pn1 pn2 : String) (hplow : pyLower pn1 = pyLower pn2)
    (ip : Nat) (hpfound : find_preset_idx pn1 = some ip)
    (pv : String × String) (pj : Nat) (hpj : pj < PRESETS.length)
    (pbad : String) (hpbad : find_preset_idx pbad = none) :
    find_color_idx n2 = some i
    ∧ find_preset_idx pn2 = some ip
    ∧ get_color_set_h colorHeap0 n1
      = Except.ok (⟨colorHeap0.cells ++ [colorHeap0.read i []]⟩, colorsets.length)
    ∧ ((⟨colorHeap0.cells ++ [colorHeap0.read i []]⟩ : Heap (List String)).write
        colorsets.length v).read j [] = colorHeap0.read j []
    ∧ got_colors ((⟨colorHeap0.cells ++ [colorHeap0.read i []]⟩ :
        Heap (List String)).write colorsets.length v) n1
      = got_colors colorHeap0 n1
    ∧ get_color_set_h colorHeap0 bad
      = Except.error (PError.colorSetNotFound bad (colorsets.map Prod.fst))
    ∧ get_paper_preset_h presetHeap0 pn1
      = Except.ok
          (⟨presetHeap0.cells ++ [presetHeap0.read ip ("", "")]⟩, PRESETS.length)
    ∧ ((⟨presetHeap0.cells ++ [presetHeap0.read ip ("", "")]⟩ :
        Heap (String × String)).write PRESETS.length pv).read pj ("", "")
      = presetHeap0.read pj ("", "")
    ∧ got_preset ((⟨presetHeap0.cells ++ [presetHeap0.read ip ("", "")]⟩ :
        Heap (String × String)).write PRESETS.length pv) pn1
      = got_preset presetHeap0 pn1
    ∧ get_paper_preset_h presetHeap0 pbad
      = Except.error (PError.presetNotFound pbad (PRESETS.map Prod.fst)) := by
  have hclen : colorHeap0.cells.length = colorsets.length := by
    simp [colorHeap0]
  have hplen : presetHeap0.cells.length = PRESETS.length := by
    simp [presetHeap0]
  have hi : i < colorsets.length :=
    keyIdxP_lt_length _ colorsets i (by simpa [find_color_idx] using hfound)
  have hip : ip < PRESETS.length :=
    keyIdxP_lt_length _ PRESETS ip (by simpa [find_preset_idx] using hpfound)
  have hframe : ∀ k, k < colorsets.length →
      ((⟨colorHeap0.cells ++ [colorHeap0.read i []]⟩ : Heap (List String)).write
        colorsets.length v).read k [] = colorHeap0.read k [] := by
    intro k hk
    rw [← hclen]
    exact heap_copy_frame colorHeap0 [] _ v k (by rw [hclen]; exact hk)
  have hpframe : ∀ k, k < PRESETS.length →
      ((⟨presetHeap0.cells ++ [presetHeap0.read ip ("", "")]⟩ :
        Heap (String × String)).write PRESETS.length pv).read k ("", "")
      = presetHeap0.read k ("", "") := by
    intro k hk
    rw [← hplen]
    exact heap_copy_frame presetHeap0 ("", "") _ pv k (by rw [hplen]; exact hk)
  refine ⟨?_, ?_, ?_, hframe j hj, ?_, ?_, ?_, hpframe pj hpj, ?_, ?_⟩
  · simp only [find_color_idx] at hfound ⊢
    simp only [← hlow]
    exact hfound
  · simp only [find_preset_idx] at hpfound ⊢
    simp only [← hplow]
    exact hpfound
  · simp only [get_color_set_h, hfound, Heap.alloc, hclen]
  · rw [got_colors_eq _ n1 i hfound, got_colors_eq colorHeap0 n1 i hfound]
    exact congrArg some (hframe i hi)
  · simp only [get_color_set_h, hbad]
  · simp only [get_paper_preset_h, hpfound, Heap.alloc, hplen]
  · rw [got_preset_eq _ pn1 ip hpfound, got_preset_eq presetHeap0 pn1 ip hpfound]
    exact congrArg some (hpframe ip hip)
  · simp only [get_paper_preset_h, hpbad]

/-- Witness for C10: "OKABE-ITO" and "okabe-ito" resolve to the same
registry entry (index 8), and "IEEE-Modern" resolves like "ieee-modern". -/
theorem registry_copy_semantics_witness :
    find_color_idx "okabe-ito" = some 8 ∧ find_preset_idx "ieee-modern" = some 0 := by
  have h := registry_copy_semantics "OKABE-ITO" "okabe-ito" (by decide) 8 (by decide)
    ["x"] 0 (by decide) "nope" (by decide) "IEEE-Modern" "ieee-modern" (by decide)
    0 (by decide) ("", "") 0 (by decide) "also-missing" (by decide)
  exact ⟨h.1, h.2.1⟩

end PaperPlot
